import Mathlib

/-!
# Verification of libgit2's `src/reader.c`

A shallow embedding of the content-reader component of libgit2
(`src/reader.c`): the tree-backed, index-backed and working-directory-backed
readers behind the uniform `git_reader_read` / `git_reader_free` dispatch.

Machine state that the C code mutates through pointers (the output content
buffer `git_buf *out` and the caller's identity slot `git_oid *out_id`) is
threaded explicitly: each read function takes the buffer and the id slot
before the call and returns their state after the call together with the
`int` error code.  Collaborators that can fail nondeterministically
(allocation inside `git_buf_put` and `git_blob__getbuf`) are resolved by an
explicit allocation oracle passed to the call.
-/

set_option autoImplicit false

namespace Reader

/-- A content identity (`git_oid`), abstracted to its value; two identities
are equal iff their representations match. -/
abbrev Oid : Type := Nat

/-- `GIT_ENOTFOUND` from `git2/errors.h`. -/
def GIT_ENOTFOUND : Int := -3

/-- Modelled from the spec: `GIT_READER_MISMATCH` is declared in `reader.h`,
which is not part of the sources here; per the spec's error taxonomy
(Mismatch is its own categorized error kind, distinct from NotFound and from
success) it is modelled as a nonzero value distinct from `GIT_ENOTFOUND`. -/
def GIT_READER_MISMATCH : Int := 1

/-- A `git_buf`: either a well-formed buffer holding bytes, or the
out-of-memory sentinel state (`ptr == git_buf__oom`), which is what
`git_buf_oom` detects. -/
inductive GitBuf : Type where
  | ok (data : List Nat)
  | oom
deriving DecidableEq, Repr

/-- `git_buf_clear`: resets the size of a well-formed buffer to zero; a
buffer in the OOM sentinel state stays in it. -/
def git_buf_clear : GitBuf → GitBuf
  | GitBuf.ok _ => GitBuf.ok []
  | GitBuf.oom => GitBuf.oom

/-- `git_buf_put buf data` with an explicit allocation outcome `allocOk`:
on a well-formed buffer, appends `data` when the growth allocation
succeeds and enters the OOM sentinel state when it fails; a buffer already
in the OOM state stays there (its `ENSURE_SIZE` fails). -/
def git_buf_put (allocOk : Bool) : GitBuf → List Nat → GitBuf
  | GitBuf.oom, _ => GitBuf.oom
  | GitBuf.ok old, data => if allocOk then GitBuf.ok (old ++ data) else GitBuf.oom

/-- `git_buf_oom`: detects the OOM sentinel state. -/
def git_buf_oom : GitBuf → Bool
  | GitBuf.oom => true
  | GitBuf.ok _ => false

/-- Allocation oracle for one `read` call: whether the allocation inside
`git_buf_put` (tree reader) and inside `git_blob__getbuf` (index reader)
succeeds. -/
structure Alloc : Type where
  putOk : Bool
  getbufOk : Bool
deriving DecidableEq, Repr

/-- A staging table (`git_index`): `get_bypath` is
`git_index_get_bypath(index, path, stage)`, returning the entry's stored
content identity (the entry is represented by its `id` field, the only
field the readers consult). -/
structure GitIndex : Type where
  get_bypath : String → Nat → Option Oid

/-- A repository, carrying the collaborators the readers consume:
the working-directory root path, the filesystem (bytes of the file at an
absolute path), the content-filter pipeline loaded per in-repo path in the
to-ODB direction, the object store (blob raw content by identity), and the
repository's own default staging table
(`git_repository_index__weakptr`). -/
structure Repository : Type where
  workdirRoot : String
  fs : String → Option (List Nat)
  filters : String → List Nat → List Nat
  odb : Oid → Option (List Nat)
  idx : GitIndex

/-- A tree (`git_tree`): entry lookup by path (`git_tree_entry_bypath`,
returning the entry's stored identity, the only field the tree reader
consults) and the owning repository (`git_tree_owner`). -/
structure GitTree : Type where
  owner : Repository
  entries : String → Option Oid

/-- Result of one `read` call: the returned `int` error code, the state of
the caller's content buffer after the call, the state of the caller's
identity slot after the call (`none` when the caller passed `NULL` for
`out_id`), and an observation flag recording whether `git_odb_hash` was
invoked during the call (needed to state the "hash only when needed"
property; the C code has no such output, the flag merely records which
branch executed). -/
structure ReadResult : Type where
  err : Int
  out : GitBuf
  outId : Option Oid
  hashed : Bool
deriving DecidableEq, Repr

/-- `tree_reader_read`: looks the path up in the bound tree, loads the blob
from the tree's owner repository, clears the output buffer and copies the
blob's raw content into it, flags `-1` on buffer OOM, and copies the tree
entry's identity to the caller's slot when one was passed — also when the
copy failed. -/
def tree_reader_read (alloc : Alloc) (tree : GitTree) (filename : String)
    (out : GitBuf) (out_id : Option Oid) : ReadResult :=
  match tree.entries filename with
  | none => ⟨GIT_ENOTFOUND, out, out_id, false⟩
  | some entryId =>
    match tree.owner.odb entryId with
    | none => ⟨GIT_ENOTFOUND, out, out_id, false⟩
    | some content =>
      let out1 := git_buf_put alloc.putOk (git_buf_clear out) content
      let err : Int := if git_buf_oom out1 then -1 else 0
      let outId1 : Option Oid :=
        match out_id with
        | some _ => some entryId
        | none => none
      ⟨err, out1, outId1, false⟩

/-- `git_buf_joinpath`: joins the working-directory root with the in-repo
path (roots are held without a trailing slash). -/
def joinpath (root name : String) : String := root ++ "/" ++ name

/-- `git_filter_list_apply_to_file`: reads the file at the absolute path
and writes the filtered bytes (filter list loaded for `filename`) into the
output buffer, replacing its content wholly; when the file does not exist
the call fails with `GIT_ENOTFOUND` and the buffer is untouched. -/
def git_filter_list_apply_to_file (repo : Repository) (filename path : String)
    (out : GitBuf) : Int × GitBuf :=
  match repo.fs path with
  | none => (GIT_ENOTFOUND, out)
  | some data => (0, GitBuf.ok (repo.filters filename data))

/-- The workdir reader's state: the bound repository and the optional
staging table bound for verification (borrowed from the repository when
`validate_index` was set at construction). -/
structure WorkdirReader : Type where
  repo : Repository
  index : Option GitIndex

/-- `workdir_reader_read`: joins the workdir root with the path, applies
the to-ODB filter pipeline to the on-disk file into the output buffer,
computes the blob hash of the (filtered) buffer content when the caller
requested an identity or a staging table is bound, compares against the
stage-0 staging entry when a table is bound (failing with
`GIT_READER_MISMATCH` when the entry is absent or its identity differs),
and finally copies the computed identity to the caller's slot when one was
passed.  `odb_hash` is `git_odb_hash(..., GIT_OBJ_BLOB)`. -/
def workdir_reader_read (odb_hash : List Nat → Oid) (reader : WorkdirReader)
    (filename : String) (out : GitBuf) (out_id : Option Oid) : ReadResult :=
  let path := joinpath reader.repo.workdirRoot filename
  match git_filter_list_apply_to_file reader.repo filename path out with
  | (e, out1) =>
    if e < 0 then ⟨e, out1, out_id, false⟩
    else
      if out_id.isSome || reader.index.isSome then
        let id := odb_hash (match out1 with | GitBuf.ok d => d | GitBuf.oom => [])
        match reader.index with
        | some idx =>
          match idx.get_bypath filename 0 with
          | none => ⟨GIT_READER_MISMATCH, out1, out_id, true⟩
          | some entryId =>
            if id = entryId then
              ⟨0, out1, (match out_id with | some _ => some id | none => none), true⟩
            else
              ⟨GIT_READER_MISMATCH, out1, out_id, true⟩
        | none =>
          ⟨0, out1, (match out_id with | some _ => some id | none => none), true⟩
      else
        ⟨0, out1, out_id, false⟩

/-- `git_reader_for_workdir repo validate_index`: binds the repository and,
when validation is requested, borrows the repository's own staging table
(`git_repository_index__weakptr`); otherwise no table is bound. -/
def git_reader_for_workdir (repo : Repository) (validate_index : Bool) :
    WorkdirReader :=
  ⟨repo, if validate_index then some repo.idx else none⟩

/-- The index reader's state: the bound repository and the staging table
(the caller's, or the repository's default one). -/
structure IndexReader : Type where
  repo : Repository
  index : GitIndex

/-- `git_blob__getbuf`: sets the output buffer to the blob's raw content
(`git_buf_set`); with an explicit allocation outcome: on allocation
failure the buffer enters the OOM sentinel state and `-1` is returned. -/
def git_blob__getbuf (allocOk : Bool) (_out : GitBuf) (content : List Nat) :
    Int × GitBuf :=
  if allocOk then (0, GitBuf.ok content) else (-1, GitBuf.oom)

/-- `index_reader_read`: looks the path up at stage 0 in the bound staging
table (failing with `GIT_ENOTFOUND` when absent), loads the blob the entry
references from the repository, copies the entry's identity to the caller's
slot when one was passed — before the content load — and then loads the
blob's content into the output buffer. -/
def index_reader_read (alloc : Alloc) (reader : IndexReader)
    (filename : String) (out : GitBuf) (out_id : Option Oid) : ReadResult :=
  match reader.index.get_bypath filename 0 with
  | none => ⟨GIT_ENOTFOUND, out, out_id, false⟩
  | some entryId =>
    match reader.repo.odb entryId with
    | none => ⟨GIT_ENOTFOUND, out, out_id, false⟩
    | some content =>
      let outId1 : Option Oid :=
        match out_id with
        | some _ => some entryId
        | none => none
      match git_blob__getbuf alloc.getbufOk out content with
      | (err, out1) => ⟨err, out1, outId1, false⟩

/-- `git_reader_for_index repo index?`: binds the caller's staging table
when one is supplied, else borrows the repository's default one. -/
def git_reader_for_index (repo : Repository) (index : Option GitIndex) :
    IndexReader :=
  ⟨repo, match index with | some i => i | none => repo.idx⟩

/-- The reader capability as the closed tagged variant the three backends
realize through their function pointers. -/
inductive GitReader : Type where
  | tree (t : GitTree)
  | workdir (r : WorkdirReader)
  | index (r : IndexReader)

/-- `git_reader_read`: the dispatcher, forwarding to the bound variant's
read operation. -/
def git_reader_read (alloc : Alloc) (odb_hash : List Nat → Oid)
    (reader : GitReader) (filename : String) (out : GitBuf)
    (out_id : Option Oid) : ReadResult :=
  match reader with
  | GitReader.tree t => tree_reader_read alloc t filename out out_id
  | GitReader.workdir r => workdir_reader_read odb_hash r filename out out_id
  | GitReader.index r => index_reader_read alloc r filename out out_id

/-- `tree_reader_free`: a no-op (`GIT_UNUSED`); frees no borrowed state. -/
def tree_reader_free (_t : GitTree) : Bool := false

/-- `workdir_reader_free`: a no-op; frees no borrowed state. -/
def workdir_reader_free (_r : WorkdirReader) : Bool := false

/-- `index_reader_free`: a no-op; frees no borrowed state. -/
def index_reader_free (_r : IndexReader) : Bool := false

/-- Observable effect of one `git_reader_free` call: whether the variant's
teardown ran, whether the reader's own storage was released
(`git__free(reader)`), and whether any borrowed object (tree, repository,
staging table) was freed. -/
structure FreeTrace : Type where
  teardownRan : Bool
  readerFreed : Bool
  borrowedFreed : Bool
deriving DecidableEq, Repr

/-- `git_reader_free`: returns immediately on a null reader; otherwise
invokes the variant's teardown through the function pointer and then
releases the reader's own storage. -/
def git_reader_free : Option GitReader → FreeTrace
  | none => ⟨false, false, false⟩
  | some r =>
    let borrowed :=
      match r with
      | GitReader.tree t => tree_reader_free t
      | GitReader.workdir w => workdir_reader_free w
      | GitReader.index i => index_reader_free i
    ⟨true, true, borrowed⟩

/-! ## Concrete fixtures used to instantiate the theorems -/

/-- A staging table with no entries. -/
def emptyIndex : GitIndex := ⟨fun _ _ => none⟩

/-- A staging table whose every lookup yields the identity `7`. -/
def idx7 : GitIndex := ⟨fun _ _ => some 7⟩

/-- A repository whose working directory holds the bytes `[104, 105]` at
every path, with the identity content filter and an empty staging table. -/
def repoNoStage : Repository :=
  ⟨"wd", fun _ => some [104, 105], fun _ d => d, fun _ => some [1, 2], emptyIndex⟩

/-- Like `repoNoStage`, but every path is staged with identity `7`. -/
def repoStage7 : Repository :=
  ⟨"wd", fun _ => some [104, 105], fun _ d => d, fun _ => some [1, 2], idx7⟩

/-- A hash oracle mapping every byte sequence to the identity `7`. -/
def hash7 : List Nat → Oid := fun _ => 7

/-- A hash oracle mapping every byte sequence to the identity `8`. -/
def hash8 : List Nat → Oid := fun _ => 8

/-- A tree holding the identity `9` at every path, over a repository whose
object store stores the bytes `[1, 2, 3]` for every identity. -/
def tree9 : GitTree :=
  ⟨⟨"wd", fun _ => none, fun _ d => d, fun _ => some [1, 2, 3], emptyIndex⟩,
   fun _ => some 9⟩

/-- A tree with no entries. -/
def treeEmpty : GitTree := ⟨tree9.owner, fun _ => none⟩

/-- An index reader over `tree9`'s repository with every path staged at
identity `9`. -/
def idxReader9 : IndexReader := ⟨tree9.owner, ⟨fun _ _ => some 9⟩⟩

/-- An index reader bound to an empty staging table. -/
def idxReaderEmpty : IndexReader := ⟨tree9.owner, emptyIndex⟩

/-! ## Helper facts about the error constants -/

lemma enotfound_lt_zero : GIT_ENOTFOUND < 0 := by decide

lemma mismatch_ne_zero : GIT_READER_MISMATCH ≠ 0 := by decide

/-! ## Characterization of a workdir read once filtering succeeded -/

/-- Once the filter application succeeded (the working file exists), a
workdir read reduces to the hash/verify/copy cascade over the filtered
bytes. -/
lemma workdir_read_after_filter (odb_hash : List Nat → Oid)
    (w : WorkdirReader) (filename : String) (out : GitBuf)
    (out_id : Option Oid) (data : List Nat)
    (hfs : w.repo.fs (joinpath w.repo.workdirRoot filename) = some data) :
    workdir_reader_read odb_hash w filename out out_id =
      (if out_id.isSome || w.index.isSome then
        match w.index with
        | some idx =>
          match idx.get_bypath filename 0 with
          | none =>
            ⟨GIT_READER_MISMATCH, GitBuf.ok (w.repo.filters filename data),
             out_id, true⟩
          | some entryId =>
            if odb_hash (w.repo.filters filename data) = entryId then
              ⟨0, GitBuf.ok (w.repo.filters filename data),
               (match out_id with
                | some _ => some (odb_hash (w.repo.filters filename data))
                | none => none), true⟩
            else
              ⟨GIT_READER_MISMATCH, GitBuf.ok (w.repo.filters filename data),
               out_id, true⟩
        | none =>
          ⟨0, GitBuf.ok (w.repo.filters filename data),
           (match out_id with
            | some _ => some (odb_hash (w.repo.filters filename data))
            | none => none), true⟩
       else ⟨0, GitBuf.ok (w.repo.filters filename data), out_id, false⟩) := by
  simp only [workdir_reader_read, git_filter_list_apply_to_file, hfs]
  norm_num

/-- Once the filter application succeeded, the output buffer holds the
complete filtered content in every branch, success and failure alike. -/
lemma workdir_out_after_filter (odb_hash : List Nat → Oid)
    (w : WorkdirReader) (filename : String) (out : GitBuf)
    (out_id : Option Oid) (data : List Nat)
    (hfs : w.repo.fs (joinpath w.repo.workdirRoot filename) = some data) :
    (workdir_reader_read odb_hash w filename out out_id).out =
      GitBuf.ok (w.repo.filters filename data) := by
  rw [workdir_read_after_filter odb_hash w filename out out_id data hfs]
  cases hidx : w.index with
  | none => cases out_id <;> simp
  | some idx =>
    cases hg : idx.get_bypath filename 0 with
    | none => cases out_id <;> simp [hg]
    | some entryId =>
      cases out_id <;> simp [hg] <;> split <;> rfl

/-! ## Claims -/

/-- C4: for every path present in a tree, a tree-reader read of the path
succeeds (given that the referenced blob is in the owner's object store and
the caller's buffer is well formed and the copy allocation succeeds), the
returned bytes are the stored blob content referenced by the tree's entry,
and the returned identity, when requested, is the entry's stored
identity. -/
theorem C4_tree_read_found (alloc : Alloc) (tree : GitTree) (p : String)
    (out : GitBuf) (out_id : Option Oid) (entryId : Oid) (content : List Nat)
    (hput : alloc.putOk = true) (hout : out ≠ GitBuf.oom)
    (hentry : tree.entries p = some entryId)
    (hodb : tree.owner.odb entryId = some content) :
    (tree_reader_read alloc tree p out out_id).err = 0 ∧
    (tree_reader_read alloc tree p out out_id).out = GitBuf.ok content ∧
    (tree_reader_read alloc tree p out out_id).outId =
      (match out_id with | some _ => some entryId | none => none) := by
  obtain ⟨l, rfl⟩ : ∃ l, out = GitBuf.ok l := by
    cases out with
    | ok l => exact ⟨l, rfl⟩
    | oom => exact absurd rfl hout
  simp [tree_reader_read, hentry, hodb, git_buf_clear, git_buf_put, hput,
    git_buf_oom]

/-- Witness for `C4_tree_read_found` at a concrete input. -/
theorem C4_tree_read_found_witness :
    (tree_reader_read ⟨true, true⟩ tree9 "a.txt" (GitBuf.ok []) (some 0)).err = 0 ∧
    (tree_reader_read ⟨true, true⟩ tree9 "a.txt" (GitBuf.ok []) (some 0)).out =
      GitBuf.ok [1, 2, 3] ∧
    (tree_reader_read ⟨true, true⟩ tree9 "a.txt" (GitBuf.ok []) (some 0)).outId =
      (match (some 0 : Option Oid) with | some _ => some 9 | none => none) :=
  C4_tree_read_found ⟨true, true⟩ tree9 "a.txt" (GitBuf.ok []) (some 0) 9
    [1, 2, 3] rfl (by simp) rfl rfl

/-- C5: a tree-reader read of a path absent from the tree fails with
`GIT_ENOTFOUND`, and an index-reader read of a path with no stage-0 entry
in the bound staging table fails with `GIT_ENOTFOUND`. -/
theorem C5_absent_not_found (alloc : Alloc) (tree : GitTree)
    (idxr : IndexReader) (p : String) (out : GitBuf) (out_id : Option Oid) :
    (tree.entries p = none →
      (tree_reader_read alloc tree p out out_id).err = GIT_ENOTFOUND) ∧
    (idxr.index.get_bypath p 0 = none →
      (index_reader_read alloc idxr p out out_id).err = GIT_ENOTFOUND) := by
  constructor
  · intro h
    simp [tree_reader_read, h]
  · intro h
    simp [index_reader_read, h]

/-- Witness for `C5_absent_not_found` at a concrete input. -/
theorem C5_absent_not_found_witness :
    (tree_reader_read ⟨true, true⟩ treeEmpty "a.txt" (GitBuf.ok [])
      none).err = GIT_ENOTFOUND ∧
    (index_reader_read ⟨true, true⟩ idxReaderEmpty "a.txt" (GitBuf.ok [])
      none).err = GIT_ENOTFOUND :=
  ⟨(C5_absent_not_found ⟨true, true⟩ treeEmpty idxReaderEmpty "a.txt"
      (GitBuf.ok []) none).1 rfl,
   (C5_absent_not_found ⟨true, true⟩ treeEmpty idxReaderEmpty "a.txt"
      (GitBuf.ok []) none).2 rfl⟩

/-- C6: for every path with a stage-0 entry in the bound staging table, an
index-reader read succeeds (given that the referenced blob is in the object
store and the content-load allocation succeeds), the returned bytes are the
blob the entry references, and the returned identity, when requested, is
the entry's stored identity. -/
theorem C6_index_read_found (alloc : Alloc) (idxr : IndexReader) (p : String)
    (out : GitBuf) (out_id : Option Oid) (entryId : Oid) (content : List Nat)
    (hget : alloc.getbufOk = true)
    (hentry : idxr.index.get_bypath p 0 = some entryId)
    (hodb : idxr.repo.odb entryId = some content) :
    (index_reader_read alloc idxr p out out_id).err = 0 ∧
    (index_reader_read alloc idxr p out out_id).out = GitBuf.ok content ∧
    (index_reader_read alloc idxr p out out_id).outId =
      (match out_id with | some _ => some entryId | none => none) := by
  simp [index_reader_read, hentry, hodb, git_blob__getbuf, hget]

/-- Witness for `C6_index_read_found` at a concrete input. -/
theorem C6_index_read_found_witness :
    (index_reader_read ⟨true, true⟩ idxReader9 "a.txt" (GitBuf.ok [])
      (some 0)).err = 0 ∧
    (index_reader_read ⟨true, true⟩ idxReader9 "a.txt" (GitBuf.ok [])
      (some 0)).out = GitBuf.ok [1, 2, 3] ∧
    (index_reader_read ⟨true, true⟩ idxReader9 "a.txt" (GitBuf.ok [])
      (some 0)).outId =
      (match (some 0 : Option Oid) with | some _ => some 9 | none => none) :=
  C6_index_read_found ⟨true, true⟩ idxReader9 "a.txt" (GitBuf.ok []) (some 0)
    9 [1, 2, 3] rfl rfl rfl

/-- C9: `git_reader_free` on a null reader is a no-op (nothing runs,
nothing is freed); on a non-null reader it runs the variant's teardown and
releases the reader's own storage while freeing no borrowed state. -/
theorem C9_free_safe :
    git_reader_free none = ⟨false, false, false⟩ ∧
    ∀ r : GitReader, git_reader_free (some r) = ⟨true, true, false⟩ := by
  refine ⟨rfl, fun r => ?_⟩
  cases r <;> rfl

/-- C10: identity outputs are written on some error paths.  In a tree read
whose buffer-copy allocation fails, the call returns `-1` yet the requested
identity slot holds the tree entry's identity; in an index read whose
content load fails, the call returns `-1` yet the requested identity slot
holds the staging entry's identity (it was written before the load). -/
theorem C10_id_written_on_error (tree : GitTree) (idxr : IndexReader)
    (p : String) (out : GitBuf) (v0 : Oid) (entryId entryId2 : Oid)
    (content content2 : List Nat) :
    (tree.entries p = some entryId →
      tree.owner.odb entryId = some content →
      (tree_reader_read ⟨false, true⟩ tree p out (some v0)).err = -1 ∧
      (tree_reader_read ⟨false, true⟩ tree p out (some v0)).outId =
        some entryId) ∧
    (idxr.index.get_bypath p 0 = some entryId2 →
      idxr.repo.odb entryId2 = some content2 →
      (index_reader_read ⟨true, false⟩ idxr p out (some v0)).err = -1 ∧
      (index_reader_read ⟨true, false⟩ idxr p out (some v0)).outId =
        some entryId2) := by
  constructor
  · intro hentry hodb
    have hb : git_buf_put false (git_buf_clear out) content = GitBuf.oom := by
      cases out <;> simp [git_buf_clear, git_buf_put]
    simp [tree_reader_read, hentry, hodb, hb, git_buf_oom]
  · intro hentry hodb
    simp [index_reader_read, hentry, hodb, git_blob__getbuf]

/-- Witness for `C10_id_written_on_error` at a concrete input. -/
theorem C10_id_written_on_error_witness :
    ((tree_reader_read ⟨false, true⟩ tree9 "a.txt" (GitBuf.ok [])
        (some 0)).err = -1 ∧
      (tree_reader_read ⟨false, true⟩ tree9 "a.txt" (GitBuf.ok [])
        (some 0)).outId = some 9) ∧
    ((index_reader_read ⟨true, false⟩ idxReader9 "a.txt" (GitBuf.ok [])
        (some 0)).err = -1 ∧
      (index_reader_read ⟨true, false⟩ idxReader9 "a.txt" (GitBuf.ok [])
        (some 0)).outId = some 9) :=
  ⟨(C10_id_written_on_error tree9 idxReader9 "a.txt" (GitBuf.ok []) 0 9 9
      [1, 2, 3] [1, 2, 3]).1 rfl rfl,
   (C10_id_written_on_error tree9 idxReader9 "a.txt" (GitBuf.ok []) 0 9 9
      [1, 2, 3] [1, 2, 3]).2 rfl rfl⟩

/-- C1 counterexample: in a validating workdir read of a path that has no
staging entry while the working file exists, the call does not fail with
`GIT_ENOTFOUND` — it fails with `GIT_READER_MISMATCH`. -/
theorem C1_counterexample :
    repoNoStage.idx.get_bypath "a.txt" 0 = none ∧
    repoNoStage.fs (joinpath repoNoStage.workdirRoot "a.txt") =
      some [104, 105] ∧
    (workdir_reader_read hash7 (git_reader_for_workdir repoNoStage true)
      "a.txt" (GitBuf.ok []) none).err ≠ GIT_ENOTFOUND ∧
    (workdir_reader_read hash7 (git_reader_for_workdir repoNoStage true)
      "a.txt" (GitBuf.ok []) none).err = GIT_READER_MISMATCH := by
  refine ⟨rfl, rfl, ?_, rfl⟩
  decide

/-- C1 (amended): a validating workdir read of a path that has no staging
entry fails with `GIT_READER_MISMATCH` — not `GIT_ENOTFOUND` — whenever the
working file exists at the path. -/
theorem C1_no_staging_entry_mismatch (repo : Repository)
    (odb_hash : List Nat → Oid) (p : String) (out : GitBuf)
    (out_id : Option Oid) (data : List Nat)
    (hidx : repo.idx.get_bypath p 0 = none)
    (hfs : repo.fs (joinpath repo.workdirRoot p) = some data) :
    (workdir_reader_read odb_hash (git_reader_for_workdir repo true) p out
      out_id).err = GIT_READER_MISMATCH := by
  rw [workdir_read_after_filter odb_hash (git_reader_for_workdir repo true)
    p out out_id data hfs]
  simp [git_reader_for_workdir, hidx]

/-- Witness for `C1_no_staging_entry_mismatch` at a concrete input. -/
theorem C1_no_staging_entry_mismatch_witness :
    (workdir_reader_read hash8 (git_reader_for_workdir repoNoStage true)
      "b.txt" (GitBuf.ok [3]) (some 0)).err = GIT_READER_MISMATCH :=
  C1_no_staging_entry_mismatch repoNoStage hash8 "b.txt" (GitBuf.ok [3])
    (some 0) [104, 105] rfl rfl

/-- C2 counterexample: a validating workdir read that fails (with
`GIT_READER_MISMATCH`) leaves the output buffer fully populated with the
filtered working-file content — not in an empty state. -/
theorem C2_counterexample :
    (workdir_reader_read hash7 (git_reader_for_workdir repoNoStage true)
      "a.txt" (GitBuf.ok []) none).err ≠ 0 ∧
    (workdir_reader_read hash7 (git_reader_for_workdir repoNoStage true)
      "a.txt" (GitBuf.ok []) none).out = GitBuf.ok [104, 105] ∧
    GitBuf.ok ([104, 105] : List Nat) ≠ GitBuf.ok [] := by
  refine ⟨?_, rfl, ?_⟩ <;> decide

/-- C2 (amended): on any failing read, through any variant, the output
buffer is never partially populated: it is left exactly as the caller
passed it, or it is in the OOM sentinel state (with no content observable),
or — for a workdir read that failed after the filter stage, i.e. on a
verification mismatch — it holds the complete filtered content of the
working file. -/
theorem C2_no_partial_output (alloc : Alloc) (odb_hash : List Nat → Oid)
    (reader : GitReader) (filename : String) (out : GitBuf)
    (out_id : Option Oid)
    (herr : (git_reader_read alloc odb_hash reader filename out out_id).err ≠ 0) :
    (git_reader_read alloc odb_hash reader filename out out_id).out = out ∨
    (git_reader_read alloc odb_hash reader filename out out_id).out =
      GitBuf.oom ∨
    (∃ w data, reader = GitReader.workdir w ∧
      w.repo.fs (joinpath w.repo.workdirRoot filename) = some data ∧
      (git_reader_read alloc odb_hash reader filename out out_id).out =
        GitBuf.ok (w.repo.filters filename data)) := by
  cases reader with
  | tree t =>
    cases hentry : t.entries filename with
    | none => left; simp [git_reader_read, tree_reader_read, hentry]
    | some entryId =>
      cases hodb : t.owner.odb entryId with
      | none => left; simp [git_reader_read, tree_reader_read, hentry, hodb]
      | some content =>
        cases hput : git_buf_put alloc.putOk (git_buf_clear out) content with
        | oom =>
          right; left
          simp [git_reader_read, tree_reader_read, hentry, hodb, hput]
        | ok d =>
          exact absurd (by simp [git_reader_read, tree_reader_read, hentry,
            hodb, hput, git_buf_oom]) herr
  | workdir w =>
    cases hfs : w.repo.fs (joinpath w.repo.workdirRoot filename) with
    | none =>
      left
      simp only [git_reader_read, workdir_reader_read,
        git_filter_list_apply_to_file, hfs]
      norm_num [enotfound_lt_zero]
    | some data =>
      right; right
      exact ⟨w, data, rfl, hfs,
        workdir_out_after_filter odb_hash w filename out out_id data hfs⟩
  | index r =>
    cases hentry : r.index.get_bypath filename 0 with
    | none => left; simp [git_reader_read, index_reader_read, hentry]
    | some entryId =>
      cases hodb : r.repo.odb entryId with
      | none => left; simp [git_reader_read, index_reader_read, hentry, hodb]
      | some content =>
        cases hget : alloc.getbufOk with
        | true =>
          exact absurd (by simp [git_reader_read, index_reader_read, hentry,
            hodb, git_blob__getbuf, hget]) herr
        | false =>
          right; left
          simp [git_reader_read, index_reader_read, hentry, hodb,
            git_blob__getbuf, hget]

/-- Witness for `C2_no_partial_output` at a concrete input: a tree read of
a missing path fails and leaves the caller's buffer exactly as passed. -/
theorem C2_no_partial_output_witness :
    (git_reader_read ⟨true, true⟩ hash7 (GitReader.tree treeEmpty) "a.txt"
      (GitBuf.ok [5, 6]) none).out = GitBuf.ok [5, 6] ∨
    (git_reader_read ⟨true, true⟩ hash7 (GitReader.tree treeEmpty) "a.txt"
      (GitBuf.ok [5, 6]) none).out = GitBuf.oom ∨
    (∃ w data, GitReader.tree treeEmpty = GitReader.workdir w ∧
      w.repo.fs (joinpath w.repo.workdirRoot "a.txt") = some data ∧
      (git_reader_read ⟨true, true⟩ hash7 (GitReader.tree treeEmpty) "a.txt"
        (GitBuf.ok [5, 6]) none).out = GitBuf.ok (w.repo.filters "a.txt" data)) :=
  C2_no_partial_output ⟨true, true⟩ hash7 (GitReader.tree treeEmpty) "a.txt"
    (GitBuf.ok [5, 6]) none (by decide)

/-- C3: for a path with a staging entry, a validating workdir read (given
that the working file exists so the filter stage succeeds) fails with
`GIT_READER_MISMATCH` exactly when the freshly computed identity of the
filtered content differs from the staged entry's identity; when the two
identities agree it succeeds, returning the filtered content and the
matching identity when one was requested. -/
theorem C3_validate_mismatch_iff (repo : Repository)
    (odb_hash : List Nat → Oid) (p : String) (out : GitBuf)
    (out_id : Option Oid) (entryId : Oid) (data : List Nat)
    (hidx : repo.idx.get_bypath p 0 = some entryId)
    (hfs : repo.fs (joinpath repo.workdirRoot p) = some data) :
    ((workdir_reader_read odb_hash (git_reader_for_workdir repo true) p out
        out_id).err = GIT_READER_MISMATCH ↔
      odb_hash (repo.filters p data) ≠ entryId) ∧
    (odb_hash (repo.filters p data) = entryId →
      (workdir_reader_read odb_hash (git_reader_for_workdir repo true) p out
        out_id).err = 0 ∧
      (workdir_reader_read odb_hash (git_reader_for_workdir repo true) p out
        out_id).out = GitBuf.ok (repo.filters p data) ∧
      (workdir_reader_read odb_hash (git_reader_for_workdir repo true) p out
        out_id).outId =
        (match out_id with | some _ => some entryId | none => none)) := by
  rw [workdir_read_after_filter odb_hash (git_reader_for_workdir repo true)
    p out out_id data hfs]
  by_cases heq : odb_hash (repo.filters p data) = entryId
  · constructor
    · simp [git_reader_for_workdir, hidx, heq, GIT_READER_MISMATCH]
    · intro _
      cases out_id <;> simp [git_reader_for_workdir, hidx, heq]
  · constructor
    · simp [git_reader_for_workdir, hidx, heq]
    · intro h
      exact absurd h heq

/-- Witness for `C3_validate_mismatch_iff` at a concrete input where the
staged identity agrees with the computed one. -/
theorem C3_validate_mismatch_iff_witness :
    ((workdir_reader_read hash7 (git_reader_for_workdir repoStage7 true)
        "a.txt" (GitBuf.ok []) (some 0)).err = GIT_READER_MISMATCH ↔
      hash7 (repoStage7.filters "a.txt" [104, 105]) ≠ 7) ∧
    (hash7 (repoStage7.filters "a.txt" [104, 105]) = 7 →
      (workdir_reader_read hash7 (git_reader_for_workdir repoStage7 true)
        "a.txt" (GitBuf.ok []) (some 0)).err = 0 ∧
      (workdir_reader_read hash7 (git_reader_for_workdir repoStage7 true)
        "a.txt" (GitBuf.ok []) (some 0)).out = GitBuf.ok [104, 105] ∧
      (workdir_reader_read hash7 (git_reader_for_workdir repoStage7 true)
        "a.txt" (GitBuf.ok []) (some 0)).outId =
        (match (some 0 : Option Oid) with
         | some _ => some 7
         | none => none)) :=
  C3_validate_mismatch_iff repoStage7 hash7 "a.txt" (GitBuf.ok []) (some 0)
    7 [104, 105] rfl rfl

/-- C7: during a workdir read, `git_odb_hash` runs only when the caller
requested an identity output or a staging table is bound for verification;
and whenever the filter stage succeeds (the working file exists), it runs
exactly when one of the two holds. -/
theorem C7_hash_iff_needed (odb_hash : List Nat → Oid) (w : WorkdirReader)
    (p : String) (out : GitBuf) (out_id : Option Oid) :
    ((workdir_reader_read odb_hash w p out out_id).hashed = true →
      (out_id.isSome = true ∨ w.index.isSome = true)) ∧
    ((w.repo.fs (joinpath w.repo.workdirRoot p)).isSome = true →
      ((workdir_reader_read odb_hash w p out out_id).hashed = true ↔
        (out_id.isSome = true ∨ w.index.isSome = true))) := by
  cases hfs : w.repo.fs (joinpath w.repo.workdirRoot p) with
  | none =>
    constructor
    · intro h
      exact absurd h (by
        simp only [workdir_reader_read, git_filter_list_apply_to_file, hfs]
        norm_num [enotfound_lt_zero])
    · intro h
      simp [hfs] at h
  | some data =>
    rw [workdir_read_after_filter odb_hash w p out out_id data hfs]
    cases hidx : w.index with
    | none => cases out_id <;> simp
    | some idx =>
      cases hg : idx.get_bypath p 0 with
      | none => cases out_id <;> simp [hg]
      | some entryId =>
        cases out_id <;> simp [hg] <;> split <;> simp

/-- Witness for `C7_hash_iff_needed` at a concrete input: a validating
reader hashes even when no identity output was requested. -/
theorem C7_hash_iff_needed_witness :
    ((none : Option Oid).isSome = true ∨
      (git_reader_for_workdir repoNoStage true).index.isSome = true) ∧
    ((workdir_reader_read hash7 (git_reader_for_workdir repoNoStage true)
        "a.txt" (GitBuf.ok []) none).hashed = true ↔
      ((none : Option Oid).isSome = true ∨
        (git_reader_for_workdir repoNoStage true).index.isSome = true)) :=
  ⟨(C7_hash_iff_needed hash7 (git_reader_for_workdir repoNoStage true)
      "a.txt" (GitBuf.ok []) none).1 (by decide),
   (C7_hash_iff_needed hash7 (git_reader_for_workdir repoNoStage true)
      "a.txt" (GitBuf.ok []) none).2 (by decide)⟩

/-- C8: a workdir reader constructed without validation binds no staging
table, and its read of any path whose working file exists succeeds and
returns the filtered bytes, regardless of the staging table's state. -/
theorem C8_novalidate_success (repo : Repository)
    (odb_hash : List Nat → Oid) (p : String) (out : GitBuf)
    (out_id : Option Oid) (data : List Nat)
    (hfs : repo.fs (joinpath repo.workdirRoot p) = some data) :
    (git_reader_for_workdir repo false).index = none ∧
    (workdir_reader_read odb_hash (git_reader_for_workdir repo false) p out
      out_id).err = 0 ∧
    (workdir_reader_read odb_hash (git_reader_for_workdir repo false) p out
      out_id).out = GitBuf.ok (repo.filters p data) := by
  rw [workdir_read_after_filter odb_hash (git_reader_for_workdir repo false)
    p out out_id data hfs]
  cases out_id <;> simp [git_reader_for_workdir]

/-- Witness for `C8_novalidate_success` at a concrete input (the staging
table is empty, yet the read succeeds). -/
theorem C8_novalidate_success_witness :
    (git_reader_for_workdir repoNoStage false).index = none ∧
    (workdir_reader_read hash7 (git_reader_for_workdir repoNoStage false)
      "a.txt" (GitBuf.ok []) (some 0)).err = 0 ∧
    (workdir_reader_read hash7 (git_reader_for_workdir repoNoStage false)
      "a.txt" (GitBuf.ok []) (some 0)).out =
      GitBuf.ok (repoNoStage.filters "a.txt" [104, 105]) :=
  C8_novalidate_success repoNoStage hash7 "a.txt" (GitBuf.ok []) (some 0)
    [104, 105] rfl

end Reader
